import Mathlib

/-!
Verification of `src/cameras/qhy/dummyqhy.c`, a hardware-free stand-in for a
camera vendor's single-frame capture API.

Shallow embedding conventions:
* Each `uint32_t*` out-parameter is modelled as an `Option Nat` cell:
  `none` is a null pointer, `some v` is a non-null pointer whose target
  currently holds `v`.
* The `uint8_t* imgdata` buffer is modelled as `Option (List Nat)`:
  `none` is a null pointer, `some buf` is a non-null buffer whose byte
  contents are `buf` (its capacity is `buf.length`).
* The opaque `void* handle` is modelled as a `Nat`; the code never reads it
  except to log it.
* `fprintf(stderr, ...)` logging has no functional effect and is not
  modelled.
-/

namespace DummyQHY

/-- The caller-visible memory a call to `DummyGetQHYCCDSingleFrame` may
touch: the four descriptor cells and the image buffer. -/
structure CaptureState where
  w : Option Nat
  h : Option Nat
  bpp : Option Nat
  ch : Option Nat
  imgdata : Option (List Nat)
  deriving DecidableEq, Repr

/-- The loop `for (int i = 0; i < 32; ++i) imgdata[i] = (uint8_t)(i & 0xFF);`
restricted to its first `n` iterations: `fillLoop n buf` performs the writes
at indices `0, 1, ..., n-1`, in that order (`List.set` out of range is a
no-op, matching the fact that the claims only concern buffers of capacity at
least 32). `(uint8_t)(i & 0xFF)` is `i % 256`. -/
def fillLoop : Nat → List Nat → List Nat
  | 0, buf => buf
  | n + 1, buf => (fillLoop n buf).set n (n % 256)

/-- `DummyGetQHYCCDSingleFrame` from `dummyqhy.c`: logs its inputs (not
modelled), writes each descriptor constant into the corresponding cell when
its pointer is non-null (`if (w) *w = 8;` etc.), then fills the first 32
bytes of the buffer with the pattern and returns 0 when `imgdata` is
non-null, or logs an error and returns 1 when it is null. The result is the
returned `uint32_t` status paired with the post-call memory. -/
def DummyGetQHYCCDSingleFrame (handle : Nat) (s : CaptureState) :
    Nat × CaptureState :=
  let s1 : CaptureState :=
    { s with
      w := s.w.map fun _ => 8
      h := s.h.map fun _ => 4
      bpp := s.bpp.map fun _ => 8
      ch := s.ch.map fun _ => 1 }
  match s1.imgdata with
  | some buf => (0, { s1 with imgdata := some (fillLoop 32 buf) })
  | none => (1, s1)

/-- `DummyBufferAddress` from `dummyqhy.c`: logs the pointer (not modelled)
and returns `(uintptr_t)imgdata`. A pointer is modelled as `Option Nat`
(`some a` = non-null pointer with address `a`, `none` = null, whose
`uintptr_t` representation is 0). The accessible memory `mem` is passed
through to express that the call leaves it untouched. -/
def DummyBufferAddress (imgdata : Option Nat) (mem : CaptureState) :
    Nat × CaptureState :=
  (match imgdata with
   | some a => a
   | none => 0, mem)

/-! ### Basic lemmas about the fill loop -/

theorem fillLoop_length (n : Nat) (buf : List Nat) :
    (fillLoop n buf).length = buf.length := by
  induction n with
  | zero => rfl
  | succ n ih => simp [fillLoop, List.length_set, ih]

theorem fillLoop_getElem? (n : Nat) (buf : List Nat) (i : Nat) :
    (fillLoop n buf)[i]? =
      if i < n ∧ i < buf.length then some (i % 256) else buf[i]? := by
  induction n with
  | zero =>
      simp [fillLoop]
  | succ n ih =>
      simp only [fillLoop, List.getElem?_set, fillLoop_length, ih]
      by_cases hni : n = i
      · subst hni
        by_cases hlen : n < buf.length
        · simp [hlen, Nat.lt_succ_self]
        · simp [hlen, List.getElem?_eq_none (Nat.le_of_not_lt hlen)]
      · by_cases hin : i < n
        · simp [hni, hin, Nat.lt_succ_of_lt hin]
        · have hin' : ¬ i < n + 1 := by
            intro hcon
            rcases Nat.lt_succ_iff_lt_or_eq.mp hcon with h' | h'
            · exact hin h'
            · exact hni h'.symm
          simp [hni, hin, hin']

theorem fillLoop_getElem?_of_lt (buf : List Nat) (i : Nat)
    (hi : i < 32) (hlen : 32 ≤ buf.length) :
    (fillLoop 32 buf)[i]? = some (i % 256) := by
  rw [fillLoop_getElem?]
  simp [hi, Nat.lt_of_lt_of_le hi hlen]

theorem fillLoop_getElem?_of_ge (buf : List Nat) (i : Nat) (hi : 32 ≤ i) :
    (fillLoop 32 buf)[i]? = buf[i]? := by
  rw [fillLoop_getElem?]
  simp [Nat.not_lt_of_le hi]

theorem fillLoop_idem (buf : List Nat) :
    fillLoop 32 (fillLoop 32 buf) = fillLoop 32 buf := by
  apply List.ext_getElem?
  intro i
  rw [fillLoop_getElem? 32 (fillLoop 32 buf) i, fillLoop_getElem? 32 buf i,
    fillLoop_length]
  by_cases hc : i < 32 ∧ i < buf.length
  · simp [hc]
  · simp [hc, fillLoop_getElem? 32 buf i]

/-! ### Characterisation of a capture call -/

theorem capture_snd (handle : Nat) (s : CaptureState) :
    (DummyGetQHYCCDSingleFrame handle s).2 =
      { w := s.w.map fun _ => 8
        h := s.h.map fun _ => 4
        bpp := s.bpp.map fun _ => 8
        ch := s.ch.map fun _ => 1
        imgdata := s.imgdata.map (fillLoop 32) } := by
  cases hbuf : s.imgdata <;> simp [DummyGetQHYCCDSingleFrame, hbuf]

theorem capture_fst (handle : Nat) (s : CaptureState) :
    (DummyGetQHYCCDSingleFrame handle s).1 =
      if s.imgdata = none then 1 else 0 := by
  cases hbuf : s.imgdata <;> simp [DummyGetQHYCCDSingleFrame, hbuf]

theorem const_map_idem (o : Option Nat) (c : Nat) :
    ((o.map fun _ => c).map fun _ => c) = o.map fun _ => c := by
  cases o <;> rfl

/-! ### Claim theorems -/

/-- C1, counterexample: the claim that a call with a null `imgdata` performs
no memory write at all is false — with `imgdata` null and `w` non-null
(holding 0), the call returns 1 but the `w` cell has been overwritten
with 8, so memory was modified. -/
theorem C1_counterexample :
    (DummyGetQHYCCDSingleFrame 0
      { w := some 0, h := none, bpp := none, ch := none,
        imgdata := none }).1 = 1 ∧
    (DummyGetQHYCCDSingleFrame 0
      { w := some 0, h := none, bpp := none, ch := none,
        imgdata := none }).2 ≠
      { w := some 0, h := none, bpp := none, ch := none, imgdata := none } := by
  decide

/-- C1, amended: a call with a null `imgdata` returns the failure code 1 and
writes no buffer byte (the buffer stays absent), but the descriptor writes
are not suppressed: each non-null descriptor cell is overwritten with its
constant, and each null descriptor cell stays null. -/
theorem C1_missing_buffer (handle : Nat) (s : CaptureState)
    (hbuf : s.imgdata = none) :
    (DummyGetQHYCCDSingleFrame handle s).1 = 1 ∧
    (DummyGetQHYCCDSingleFrame handle s).2.imgdata = none ∧
    (DummyGetQHYCCDSingleFrame handle s).2.w = (s.w.map fun _ => 8) ∧
    (DummyGetQHYCCDSingleFrame handle s).2.h = (s.h.map fun _ => 4) ∧
    (DummyGetQHYCCDSingleFrame handle s).2.bpp = (s.bpp.map fun _ => 8) ∧
    (DummyGetQHYCCDSingleFrame handle s).2.ch = (s.ch.map fun _ => 1) := by
  rw [capture_fst, capture_snd]
  simp [hbuf]

/-- C1 witness: the amended statement at a concrete state. -/
theorem C1_missing_buffer_witness :
    (DummyGetQHYCCDSingleFrame 3
      { w := some 5, h := none, bpp := some 7, ch := none,
        imgdata := none }).1 = 1 ∧
    (DummyGetQHYCCDSingleFrame 3
      { w := some 5, h := none, bpp := some 7, ch := none,
        imgdata := none }).2.imgdata = none ∧
    (DummyGetQHYCCDSingleFrame 3
      { w := some 5, h := none, bpp := some 7, ch := none,
        imgdata := none }).2.w = ((some 5).map fun _ => 8) ∧
    (DummyGetQHYCCDSingleFrame 3
      { w := some 5, h := none, bpp := some 7, ch := none,
        imgdata := none }).2.h = ((none : Option Nat).map fun _ => 4) ∧
    (DummyGetQHYCCDSingleFrame 3
      { w := some 5, h := none, bpp := some 7, ch := none,
        imgdata := none }).2.bpp = ((some 7).map fun _ => 8) ∧
    (DummyGetQHYCCDSingleFrame 3
      { w := some 5, h := none, bpp := some 7, ch := none,
        imgdata := none }).2.ch = ((none : Option Nat).map fun _ => 1) :=
  C1_missing_buffer 3
    { w := some 5, h := none, bpp := some 7, ch := none, imgdata := none } rfl

/-- C2: for every call with a non-null buffer of capacity at least 32, the
call returns 0 and afterwards byte `i` of the buffer equals `i % 256` for
every `i < 32`. -/
theorem C2_pattern_correct (handle : Nat) (s : CaptureState) (buf : List Nat)
    (hbuf : s.imgdata = some buf) (hlen : 32 ≤ buf.length) :
    (DummyGetQHYCCDSingleFrame handle s).1 = 0 ∧
    ∃ buf2, (DummyGetQHYCCDSingleFrame handle s).2.imgdata = some buf2 ∧
      ∀ i, i < 32 → buf2[i]? = some (i % 256) := by
  rw [capture_fst, capture_snd]
  refine ⟨by simp [hbuf], fillLoop 32 buf, by simp [hbuf], ?_⟩
  intro i hi
  exact fillLoop_getElem?_of_lt buf i hi hlen

/-- C2 witness: the pattern statement at a concrete 32-byte buffer. -/
theorem C2_pattern_correct_witness :
    (DummyGetQHYCCDSingleFrame 1
      { w := some 0, h := some 0, bpp := some 0, ch := some 0,
        imgdata := some (List.replicate 32 0) }).1 = 0 ∧
    ∃ buf2, (DummyGetQHYCCDSingleFrame 1
      { w := some 0, h := some 0, bpp := some 0, ch := some 0,
        imgdata := some (List.replicate 32 0) }).2.imgdata = some buf2 ∧
      ∀ i, i < 32 → buf2[i]? = some (i % 256) :=
  C2_pattern_correct 1
    { w := some 0, h := some 0, bpp := some 0, ch := some 0,
      imgdata := some (List.replicate 32 0) }
    (List.replicate 32 0) rfl (by simp)

/-- C3: the call returns 1 iff the buffer pointer is null, returns 0 iff it
is non-null, and 0 and 1 are the only possible return values (the model is
total — no fault). -/
theorem C3_return_codes (handle : Nat) (s : CaptureState) :
    ((DummyGetQHYCCDSingleFrame handle s).1 = 1 ↔ s.imgdata = none) ∧
    ((DummyGetQHYCCDSingleFrame handle s).1 = 0 ↔ s.imgdata ≠ none) ∧
    ((DummyGetQHYCCDSingleFrame handle s).1 = 0 ∨
      (DummyGetQHYCCDSingleFrame handle s).1 = 1) := by
  rw [capture_fst]
  cases s.imgdata <;> simp

/-- C3 witness: the return-code characterisation at a concrete state. -/
theorem C3_return_codes_witness :
    (((DummyGetQHYCCDSingleFrame 0
      { w := none, h := none, bpp := none, ch := none,
        imgdata := none }).1 = 1 ↔
      (CaptureState.imgdata
        { w := none, h := none, bpp := none, ch := none,
          imgdata := none }) = none) ∧
    ((DummyGetQHYCCDSingleFrame 0
      { w := none, h := none, bpp := none, ch := none,
        imgdata := none }).1 = 0 ↔
      (CaptureState.imgdata
        { w := none, h := none, bpp := none, ch := none,
          imgdata := none }) ≠ none) ∧
    ((DummyGetQHYCCDSingleFrame 0
      { w := none, h := none, bpp := none, ch := none,
        imgdata := none }).1 = 0 ∨
      (DummyGetQHYCCDSingleFrame 0
        { w := none, h := none, bpp := none, ch := none,
          imgdata := none }).1 = 1)) :=
  C3_return_codes 0
    { w := none, h := none, bpp := none, ch := none, imgdata := none }

/-- C4: every non-null descriptor cell is written with its documented
constant (w = 8, h = 4, bpp = 8, ch = 1), for any state of the other
destinations including the buffer. -/
theorem C4_descriptor_constants (handle : Nat) (s : CaptureState) :
    (s.w ≠ none → (DummyGetQHYCCDSingleFrame handle s).2.w = some 8) ∧
    (s.h ≠ none → (DummyGetQHYCCDSingleFrame handle s).2.h = some 4) ∧
    (s.bpp ≠ none → (DummyGetQHYCCDSingleFrame handle s).2.bpp = some 8) ∧
    (s.ch ≠ none → (DummyGetQHYCCDSingleFrame handle s).2.ch = some 1) := by
  rw [capture_snd]
  refine ⟨?_, ?_, ?_, ?_⟩
  · cases s.w <;> simp
  · cases s.h <;> simp
  · cases s.bpp <;> simp
  · cases s.ch <;> simp

/-- C4 witness: the descriptor constants at a concrete state with all four
descriptor cells non-null and a null buffer. -/
theorem C4_descriptor_constants_witness :
    ((CaptureState.w
        { w := some 9, h := some 9, bpp := some 9, ch := some 9,
          imgdata := none }) ≠ none →
      (DummyGetQHYCCDSingleFrame 2
        { w := some 9, h := some 9, bpp := some 9, ch := some 9,
          imgdata := none }).2.w = some 8) ∧
    ((CaptureState.h
        { w := some 9, h := some 9, bpp := some 9, ch := some 9,
          imgdata := none }) ≠ none →
      (DummyGetQHYCCDSingleFrame 2
        { w := some 9, h := some 9, bpp := some 9, ch := some 9,
          imgdata := none }).2.h = some 4) ∧
    ((CaptureState.bpp
        { w := some 9, h := some 9, bpp := some 9, ch := some 9,
          imgdata := none }) ≠ none →
      (DummyGetQHYCCDSingleFrame 2
        { w := some 9, h := some 9, bpp := some 9, ch := some 9,
          imgdata := none }).2.bpp = some 8) ∧
    ((CaptureState.ch
        { w := some 9, h := some 9, bpp := some 9, ch := some 9,
          imgdata := none }) ≠ none →
      (DummyGetQHYCCDSingleFrame 2
        { w := some 9, h := some 9, bpp := some 9, ch := some 9,
          imgdata := none }).2.ch = some 1) :=
  C4_descriptor_constants 2
    { w := some 9, h := some 9, bpp := some 9, ch := some 9, imgdata := none }

/-- C5: a call with all four descriptor cells null and a valid buffer of
capacity at least 32 still returns 0 and still writes the full 32-byte
pattern; absent descriptors are skipped silently. -/
theorem C5_null_descriptors_ok (handle : Nat) (buf : List Nat)
    (hlen : 32 ≤ buf.length) :
    (DummyGetQHYCCDSingleFrame handle
      { w := none, h := none, bpp := none, ch := none,
        imgdata := some buf }).1 = 0 ∧
    ∃ buf2, (DummyGetQHYCCDSingleFrame handle
      { w := none, h := none, bpp := none, ch := none,
        imgdata := some buf }).2.imgdata = some buf2 ∧
      ∀ i, i < 32 → buf2[i]? = some (i % 256) := by
  rw [capture_fst, capture_snd]
  exact ⟨by simp, fillLoop 32 buf, by simp,
    fun i hi => fillLoop_getElem?_of_lt buf i hi hlen⟩

/-- C5 witness: the null-descriptor statement at a concrete 40-byte
buffer. -/
theorem C5_null_descriptors_ok_witness :
    (DummyGetQHYCCDSingleFrame 4
      { w := none, h := none, bpp := none, ch := none,
        imgdata := some (List.replicate 40 7) }).1 = 0 ∧
    ∃ buf2, (DummyGetQHYCCDSingleFrame 4
      { w := none, h := none, bpp := none, ch := none,
        imgdata := some (List.replicate 40 7) }).2.imgdata = some buf2 ∧
      ∀ i, i < 32 → buf2[i]? = some (i % 256) :=
  C5_null_descriptors_ok 4 (List.replicate 40 7) (by simp)

/-- C6: the call never writes outside the 32-byte range — when the buffer is
non-null, its length is preserved and every byte at index at least 32 keeps
its prior value — and never dereferences a null destination: every null cell
(buffer included) is still null afterwards, nothing having been written
through it. -/
theorem C6_memory_safety (handle : Nat) (s : CaptureState) :
    (∀ buf, s.imgdata = some buf →
      ∃ buf2, (DummyGetQHYCCDSingleFrame handle s).2.imgdata = some buf2 ∧
        buf2.length = buf.length ∧
        ∀ i, 32 ≤ i → buf2[i]? = buf[i]?) ∧
    (s.imgdata = none →
      (DummyGetQHYCCDSingleFrame handle s).2.imgdata = none) ∧
    (s.w = none → (DummyGetQHYCCDSingleFrame handle s).2.w = none) ∧
    (s.h = none → (DummyGetQHYCCDSingleFrame handle s).2.h = none) ∧
    (s.bpp = none → (DummyGetQHYCCDSingleFrame handle s).2.bpp = none) ∧
    (s.ch = none → (DummyGetQHYCCDSingleFrame handle s).2.ch = none) := by
  rw [capture_snd]
  refine ⟨?_, ?_, ?_, ?_, ?_, ?_⟩
  · intro buf hbuf
    exact ⟨fillLoop 32 buf, by simp [hbuf], fillLoop_length 32 buf,
      fun i hi => fillLoop_getElem?_of_ge buf i hi⟩
  · intro hbuf; simp [hbuf]
  · intro hw; simp [hw]
  · intro hh; simp [hh]
  · intro hb; simp [hb]
  · intro hc; simp [hc]

/-- C6 witness: the memory-safety statement at a concrete state with a
non-null 33-byte buffer and all descriptor cells null. -/
theorem C6_memory_safety_witness :
    (∀ buf, (CaptureState.imgdata
        { w := none, h := none, bpp := none, ch := none,
          imgdata := some (List.replicate 33 9) }) = some buf →
      ∃ buf2, (DummyGetQHYCCDSingleFrame 5
        { w := none, h := none, bpp := none, ch := none,
          imgdata := some (List.replicate 33 9) }).2.imgdata = some buf2 ∧
        buf2.length = buf.length ∧
        ∀ i, 32 ≤ i → buf2[i]? = buf[i]?) ∧
    ((CaptureState.imgdata
        { w := none, h := none, bpp := none, ch := none,
          imgdata := some (List.replicate 33 9) }) = none →
      (DummyGetQHYCCDSingleFrame 5
        { w := none, h := none, bpp := none, ch := none,
          imgdata := some (List.replicate 33 9) }).2.imgdata = none) ∧
    ((CaptureState.w
        { w := none, h := none, bpp := none, ch := none,
          imgdata := some (List.replicate 33 9) }) = none →
      (DummyGetQHYCCDSingleFrame 5
        { w := none, h := none, bpp := none, ch := none,
          imgdata := some (List.replicate 33 9) }).2.w = none) ∧
    ((CaptureState.h
        { w := none, h := none, bpp := none, ch := none,
          imgdata := some (List.replicate 33 9) }) = none →
      (DummyGetQHYCCDSingleFrame 5
        { w := none, h := none, bpp := none, ch := none,
          imgdata := some (List.replicate 33 9) }).2.h = none) ∧
    ((CaptureState.bpp
        { w := none, h := none, bpp := none, ch := none,
          imgdata := some (List.replicate 33 9) }) = none →
      (DummyGetQHYCCDSingleFrame 5
        { w := none, h := none, bpp := none, ch := none,
          imgdata := some (List.replicate 33 9) }).2.bpp = none) ∧
    ((CaptureState.ch
        { w := none, h := none, bpp := none, ch := none,
          imgdata := some (List.replicate 33 9) }) = none →
      (DummyGetQHYCCDSingleFrame 5
        { w := none, h := none, bpp := none, ch := none,
          imgdata := some (List.replicate 33 9) }).2.ch = none) :=
  C6_memory_safety 5
    { w := none, h := none, bpp := none, ch := none,
      imgdata := some (List.replicate 33 9) }

/-- C7: the address probe returns the exact address of a non-null buffer
reference and 0 (the representation of null) for a null reference, and it
leaves the accessible memory untouched in every case. -/
theorem C7_address_probe (a : Nat) (p : Option Nat) (mem : CaptureState) :
    DummyBufferAddress (some a) mem = (a, mem) ∧
    DummyBufferAddress none mem = (0, mem) ∧
    (DummyBufferAddress p mem).2 = mem := by
  refine ⟨rfl, rfl, ?_⟩
  cases p <;> rfl

/-- C8: capture is deterministic (a pure function of its arguments) and
idempotent: running it a second time on the memory produced by a first run
with the same handle yields the same return code and the same memory. -/
theorem C8_idempotent (handle : Nat) (s : CaptureState) :
    DummyGetQHYCCDSingleFrame handle s = DummyGetQHYCCDSingleFrame handle s ∧
    DummyGetQHYCCDSingleFrame handle
        (DummyGetQHYCCDSingleFrame handle s).2 =
      DummyGetQHYCCDSingleFrame handle s := by
  refine ⟨rfl, ?_⟩
  apply Prod.ext
  · simp only [capture_fst, capture_snd]
    cases s.imgdata <;> simp
  · simp only [capture_snd]
    cases s.imgdata <;>
      simp [const_map_idem, fillLoop_idem, Function.comp_def]

/-- C9: the handle has no influence on the functional behaviour: any two
handle values with otherwise identical arguments give the same return code
and the same post-call memory. -/
theorem C9_handle_irrelevant (h1 h2 : Nat) (s : CaptureState) :
    DummyGetQHYCCDSingleFrame h1 s = DummyGetQHYCCDSingleFrame h2 s := rfl

/-- C10: in a call with a null buffer, every non-null descriptor cell is
nevertheless written with its constant before the failure code 1 is
returned — the descriptor writes precede the buffer null-check and happen
unconditionally of the buffer's presence. -/
theorem C10_descriptors_before_check (handle : Nat) (s : CaptureState)
    (hbuf : s.imgdata = none) :
    (DummyGetQHYCCDSingleFrame handle s).1 = 1 ∧
    (s.w ≠ none → (DummyGetQHYCCDSingleFrame handle s).2.w = some 8) ∧
    (s.h ≠ none → (DummyGetQHYCCDSingleFrame handle s).2.h = some 4) ∧
    (s.bpp ≠ none → (DummyGetQHYCCDSingleFrame handle s).2.bpp = some 8) ∧
    (s.ch ≠ none → (DummyGetQHYCCDSingleFrame handle s).2.ch = some 1) := by
  rw [capture_fst, capture_snd]
  refine ⟨by simp [hbuf], ?_, ?_, ?_, ?_⟩
  · cases s.w <;> simp
  · cases s.h <;> simp
  · cases s.bpp <;> simp
  · cases s.ch <;> simp

/-- C10 witness: the statement at a concrete state with a null buffer and
all four descriptor cells non-null. -/
theorem C10_descriptors_before_check_witness :
    (DummyGetQHYCCDSingleFrame 6
      { w := some 1, h := some 2, bpp := some 3, ch := some 4,
        imgdata := none }).1 = 1 ∧
    ((CaptureState.w
        { w := some 1, h := some 2, bpp := some 3, ch := some 4,
          imgdata := none }) ≠ none →
      (DummyGetQHYCCDSingleFrame 6
        { w := some 1, h := some 2, bpp := some 3, ch := some 4,
          imgdata := none }).2.w = some 8) ∧
    ((CaptureState.h
        { w := some 1, h := some 2, bpp := some 3, ch := some 4,
          imgdata := none }) ≠ none →
      (DummyGetQHYCCDSingleFrame 6
        { w := some 1, h := some 2, bpp := some 3, ch := some 4,
          imgdata := none }).2.h = some 4) ∧
    ((CaptureState.bpp
        { w := some 1, h := some 2, bpp := some 3, ch := some 4,
          imgdata := none }) ≠ none →
      (DummyGetQHYCCDSingleFrame 6
        { w := some 1, h := some 2, bpp := some 3, ch := some 4,
          imgdata := none }).2.bpp = some 8) ∧
    ((CaptureState.ch
        { w := some 1, h := some 2, bpp := some 3, ch := some 4,
          imgdata := none }) ≠ none →
      (DummyGetQHYCCDSingleFrame 6
        { w := some 1, h := some 2, bpp := some 3, ch := some 4,
          imgdata := none }).2.ch = some 1) :=
  C10_descriptors_before_check 6
    { w := some 1, h := some 2, bpp := some 3, ch := some 4,
      imgdata := none } rfl

end DummyQHY
